import Mathlib

/-!
Verification development for the DeepShield orchestration core.

This file gives a shallow embedding, in Lean, of the four components of the
repository that the specification covers:

* the Resilient Analysis Invoker (the retrying variant of `analyzeContent`,
  with constants `MAX_RETRIES` and `INITIAL_BACKOFF`, model-tier fallback,
  and score normalization; the non-retrying variant in
  `src/services/aiService.ts` shares the same normalization step),
* the Threat Classification / Alert policy and the live-session state handling
  of `src/components/Scanner.tsx` (`captureAndAnalyze` result application and
  `stopMonitoring`),
* the Batch Queue Processor (`processBatch` in `src/components/Scanner.tsx`),
* the sampling / cooldown state machine of the alternate Scanner variant
  (its `captureAndAnalyze` guard and quota-cooldown handling).

External effects are modelled by oracles: the remote forensic service is a
function from the attempt index to an attempt outcome, and per-task artifact
extraction / analysis is a function from the task id to a task outcome.
Timers are modelled as boolean "scheduled" flags together with events that
fire only when the corresponding flag is set.  Ghost fields (`attempts`,
`delays`, `tiers`) record the observable behaviour of one invocation: how
many remote calls were made, which backoff sleeps were performed, and which
model tier each attempt used.
-/

/-! ## Data model (from types.ts) -/

/-- Task lifecycle states, from the `DetectionStatus` enum in types.ts. -/
inductive DetectionStatus where
  | IDLE
  | UPLOADING
  | ANALYZING
  | COMPLETED
  | FAILED
  deriving DecidableEq, Repr

/-- Verdict classes, from the `Classification` enum in types.ts. -/
inductive Classification where
  | AUTHENTIC
  | SUSPICIOUS
  | FAKE
  deriving DecidableEq, Repr

/-- The part of an `AnalysisResult` (types.ts) that the orchestration logic
reads: the classification and the authenticity score.  The remaining fields
(id, timestamp, hash, anomalies, metric and score groups, summary) are
carried opaquely by the code and never branch the orchestration, so they are
omitted from the embedding. -/
structure AnalysisResult where
  classification : Classification
  authenticityScore : Int
  deriving DecidableEq, Repr

/-! ## Invoker: raw remote data and normalization

From the resilient `analyzeContent` variant (and identically from
src/services/aiService.ts line 117-118): the parsed JSON may be missing the
classification or the score; the code substitutes the safe default
`SUSPICIOUS` and the neutral default 50, and clamps the score with
`Math.min(100, Math.max(0, ...))`. -/

/-- A successfully parsed remote response: `forensicData.classification` and
`forensicData.authenticityScore`, each possibly absent. -/
structure RawForensicData where
  classification : Option Classification
  authenticityScore : Option Int
  deriving DecidableEq, Repr

/-- The normalization step the Invoker applies to a parsed response before
returning it:
`classification: (forensicData.classification as Classification) || SUSPICIOUS`
and
`authenticityScore: Math.min(100, Math.max(0, forensicData.authenticityScore ?? 50))`. -/
def normalizeVerdict (raw : RawForensicData) : AnalysisResult :=
  { classification := raw.classification.getD Classification.SUSPICIOUS
    authenticityScore := min 100 (max 0 (raw.authenticityScore.getD 50)) }

/-! ## Invoker: retry loop

From the resilient `analyzeContent`:

    const MAX_RETRIES = 2;
    const INITIAL_BACKOFF = 2000;
    let activeModel = isLive ? "gemini-3-flash-preview" : "gemini-3-pro-preview";
    let attempt = 0;
    while (attempt <= MAX_RETRIES) {
      try { ...generateContent(activeModel)...; JSON.parse(response.text); return {...}; }
      catch (error) {
        const isRateLimit = errorMsg.includes("429") || error.status === 429;
        if (attempt < MAX_RETRIES) {
          attempt++;
          if (activeModel.includes("pro")) activeModel = "gemini-3-flash-preview";
          await sleep(INITIAL_BACKOFF * Math.pow(2, attempt - 1));
          continue;
        }
        if (isRateLimit) throw QuotaExceeded; else throw Aborted;
      }
    }

The loop is embedded as structural recursion on
`retriesLeft = MAX_RETRIES - attempt`; the condition `attempt < MAX_RETRIES`
is `retriesLeft > 0`, and the trailing "connection timeout" throw after the
loop is unreachable (the last iteration always returns or throws). -/

def MAX_RETRIES : Nat := 2

def INITIAL_BACKOFF : Nat := 2000

def proModel : String := "gemini-3-pro-preview"

def flashModel : String := "gemini-3-flash-preview"

def proPat : String := "pro"

/-- Whether the character list `pat` occurs at the head of `text`. -/
def leadsWith : List Char → List Char → Bool
  | [], _ => true
  | _ :: _, [] => false
  | p :: ps, t :: ts => p == t && leadsWith ps ts

/-- Whether the character list `pat` occurs anywhere inside `text`. -/
def occursIn (pat : List Char) : List Char → Bool
  | [] => leadsWith pat []
  | t :: ts => leadsWith pat (t :: ts) || occursIn pat ts

/-- JavaScript `s.includes(pat)` on strings. -/
def stringIncludes (s pat : String) : Bool :=
  occursIn pat.toList s.toList

/-- The model-tier fallback applied on a retry:
`if (activeModel.includes("pro")) activeModel = "gemini-3-flash-preview"`. -/
def nextModel (m : String) : String :=
  if stringIncludes m proPat then flashModel else m

/-- Outcome of one attempt of the remote call, as the catch block can
distinguish it: the call returned and the response parsed; the response
failed to parse (`JSON.parse` threw — a malformed response, its message does
not contain 429); the call failed with a rate-limit error (429); or the call
failed with some other transient error. -/
inductive AttemptOutcome where
  | parsed (raw : RawForensicData)
  | malformed
  | rateLimited
  | transient
  deriving DecidableEq, Repr

/-- `isRateLimit = errorMsg.includes("429") || error.status === 429`:
true exactly for the rate-limit failure. -/
def isRateLimitOutcome : AttemptOutcome → Bool
  | AttemptOutcome.rateLimited => true
  | _ => false

/-- The two terminal errors of the resilient `analyzeContent`: the
"API Quota Exhausted" throw and the generic "Forensic analysis aborted"
throw. -/
inductive InvokeError where
  | quotaExceeded
  | aborted
  deriving DecidableEq, Repr

/-- Result of one invocation. -/
inductive InvokeOutcome where
  | ok (verdict : AnalysisResult)
  | err (e : InvokeError)
  deriving DecidableEq, Repr

/-- One invocation together with its observable trace: the number of remote
calls made, the backoff sleeps performed (in order), and the model used by
each attempt (in order). -/
structure InvokeResult where
  outcome : InvokeOutcome
  attempts : Nat
  delays : List Nat
  tiers : List String
  deriving DecidableEq, Repr

/-- The retry loop of the resilient `analyzeContent`.  `oracle` gives the
outcome of the remote call at each (0-based) attempt index, `retriesLeft` is
`MAX_RETRIES - attempt`.  On a failure with retries left, the backoff is
`INITIAL_BACKOFF * 2 ^ (attempt' - 1)` where `attempt' = attempt + 1`,
i.e. `INITIAL_BACKOFF * 2 ^ attempt`. -/
def attemptLoop (oracle : Nat → AttemptOutcome) : Nat → Nat → String → InvokeResult
  | 0, attempt, activeModel =>
    match oracle attempt with
    | AttemptOutcome.parsed raw =>
        { outcome := InvokeOutcome.ok (normalizeVerdict raw)
          attempts := attempt + 1
          delays := []
          tiers := [activeModel] }
    | o =>
        { outcome := InvokeOutcome.err
            (if isRateLimitOutcome o then InvokeError.quotaExceeded else InvokeError.aborted)
          attempts := attempt + 1
          delays := []
          tiers := [activeModel] }
  | r + 1, attempt, activeModel =>
    match oracle attempt with
    | AttemptOutcome.parsed raw =>
        { outcome := InvokeOutcome.ok (normalizeVerdict raw)
          attempts := attempt + 1
          delays := []
          tiers := [activeModel] }
    | _ =>
        let rest := attemptLoop oracle r (attempt + 1) (nextModel activeModel)
        { rest with
            delays := INITIAL_BACKOFF * 2 ^ attempt :: rest.delays
            tiers := activeModel :: rest.tiers }

/-- One call of the resilient `analyzeContent`: the retry budget is
`maxRetries` (the source constant `MAX_RETRIES = 2`), and the initial model
tier is the flash tier when `isLive` and the pro tier otherwise. -/
def analyzeContent (oracle : Nat → AttemptOutcome) (maxRetries : Nat) (isLive : Bool) :
    InvokeResult :=
  attemptLoop oracle maxRetries 0 (if isLive then flashModel else proModel)

/-! ## Classification / alert policy (src/components/Scanner.tsx 109-121) -/

/-- The live-path alert rule, Scanner.tsx 109-112:
`isFake = res.classification === FAKE`,
`isAtRisk = res.classification === SUSPICIOUS && res.authenticityScore < 60`,
alert iff `isFake || isAtRisk`.  The alternate Scanner variant uses the
identical condition. -/
def alertDecision (res : AnalysisResult) : Bool :=
  decide (res.classification = Classification.FAKE)
  || (decide (res.classification = Classification.SUSPICIOUS)
      && decide (res.authenticityScore < 60))

/-- The update of `lastScanWasSafe` performed by one live verdict,
Scanner.tsx 112-121: an alerting verdict clears the safe flag; a
non-alerting verdict restores it only when the score exceeds 72, and
otherwise leaves it unchanged. -/
def liveSafeStep (lastScanWasSafe : Bool) (res : AnalysisResult) : Bool :=
  if alertDecision res then false
  else if 72 < res.authenticityScore then true
  else lastScanWasSafe

/-- The update of `liveAlert` performed by one live verdict,
Scanner.tsx 112-121. -/
def liveAlertStep (prev : Option AnalysisResult) (res : AnalysisResult) :
    Option AnalysisResult :=
  if alertDecision res then some res
  else if 72 < res.authenticityScore then none
  else prev

/-! ## Live session state (src/components/Scanner.tsx)

`LiveSession` collects the pieces of component state that `stopMonitoring`
resets and that the tail of `captureAndAnalyze` (after the awaited call
returns) updates.  `samplingScheduled` models whether `samplingTimeoutRef`
holds a pending timer.  Presentation-only state (threat trend, last scan
time, active phase label) is omitted. -/

structure LiveSession where
  isStreaming : Bool
  samplingScheduled : Bool
  liveThreatScore : Int
  lastScanWasSafe : Bool
  liveAlert : Option AnalysisResult
  scanCount : Nat
  deriving DecidableEq, Repr

/-- `stopMonitoring`, Scanner.tsx 134-159: clears the streaming flag,
cancels the pending sampling timer, releases the stream (no session field),
and resets the alert, safe flag, threat score and scan count. -/
def stopMonitoring (_s : LiveSession) : LiveSession :=
  { isStreaming := false
    samplingScheduled := false
    liveThreatScore := 0
    lastScanWasSafe := true
    liveAlert := none
    scanCount := 0 }

/-- The tail of `captureAndAnalyze` (Scanner.tsx 96-131) run when the awaited
`analyzeContent` call comes back with verdict `res`: the classification
state is updated only under the `isStreamingRef.current` guard at the point
the result arrives, and the `finally` block schedules the next cycle only
while still streaming. -/
def applyLiveResult (s : LiveSession) (res : AnalysisResult) : LiveSession :=
  let s1 :=
    if s.isStreaming then
      { s with
          liveThreatScore := 100 - res.authenticityScore
          scanCount := s.scanCount + 1
          lastScanWasSafe := liveSafeStep s.lastScanWasSafe res
          liveAlert := liveAlertStep s.liveAlert res }
    else s
  if s1.isStreaming then { s1 with samplingScheduled := true } else s1

/-! ## Sampling / cooldown state machine (alternate Scanner variant)

The alternate Scanner variant guards each sample cycle with

    if (!isStreamingRef.current || !liveVideoRef.current
        || isAnalyzingLive || isCoolingDown) return;

and handles a quota failure with

    if (err.message?.includes("Quota")) {
      setIsCoolingDown(true);
      setTimeout(() => setIsCoolingDown(false), 30000);
    }
    if (isStreamingRef.current) {
      samplingTimeoutRef.current = window.setTimeout(captureAndAnalyze, 8000);
    }

`sampleScheduled` models the pending `samplingTimeoutRef` timer and
`cooldownTimerScheduled` the pending 30-second cooldown timer; each event
fires only when its flag is set, and state reads are fresh at the time the
event runs.  The frame-source handle is assumed present. -/

structure MonitorState where
  isStreaming : Bool
  isAnalyzingLive : Bool
  isCoolingDown : Bool
  sampleScheduled : Bool
  cooldownTimerScheduled : Bool
  lastScanWasSafe : Bool
  liveThreatScore : Int
  deriving DecidableEq, Repr

/-- Outcome of one sample cycle of the alternate variant: the video element
had no decodable frame yet; the analysis call succeeded; it threw an error
whose message contains "Quota"; or it threw some other error. -/
inductive SampleOutcome where
  | notReady
  | success (res : AnalysisResult)
  | quotaFailure
  | otherFailure
  deriving DecidableEq, Repr

/-- The scheduled `captureAndAnalyze` callback of the alternate variant
firing with outcome `o`.  It runs only when a sample is actually scheduled
(the timer consumed on firing); the entry guard then drops the cycle when
not streaming, already analyzing, or cooling down — without scheduling a
successor.  Otherwise: a not-ready frame reschedules (1 s); a success applies
the alert policy and reschedules (10 s); a quota failure starts the cooldown
and its expiry timer and reschedules (8 s); any other failure reschedules
(8 s).  The transient `isAnalyzingLive` flag is set and cleared within the
same cycle, so it is net unchanged. -/
def captureAndAnalyze (s : MonitorState) (o : SampleOutcome) : MonitorState :=
  if !s.sampleScheduled then s
  else
    let s := { s with sampleScheduled := false }
    if !s.isStreaming || s.isAnalyzingLive || s.isCoolingDown then s
    else
      match o with
      | SampleOutcome.notReady => { s with sampleScheduled := true }
      | SampleOutcome.success res =>
          let s :=
            if s.isStreaming then
              { s with
                  liveThreatScore := 100 - res.authenticityScore
                  lastScanWasSafe := !alertDecision res }
            else s
          if s.isStreaming then { s with sampleScheduled := true } else s
      | SampleOutcome.quotaFailure =>
          let s := { s with isCoolingDown := true, cooldownTimerScheduled := true }
          if s.isStreaming then { s with sampleScheduled := true } else s
      | SampleOutcome.otherFailure =>
          if s.isStreaming then { s with sampleScheduled := true } else s

/-- The 30-second cooldown timer firing:
`setTimeout(() => setIsCoolingDown(false), 30000)`.  It only clears the
cooldown flag; it does not schedule any sample cycle. -/
def cooldownExpire (s : MonitorState) : MonitorState :=
  if s.cooldownTimerScheduled then
    { s with isCoolingDown := false, cooldownTimerScheduled := false }
  else s

/-- A live session in its steady running state, with the next sample cycle
scheduled and no cooldown active. -/
def runningState : MonitorState :=
  { isStreaming := true
    isAnalyzingLive := false
    isCoolingDown := false
    sampleScheduled := true
    cooldownTimerScheduled := false
    lastScanWasSafe := true
    liveThreatScore := 0 }

/-! ## Batch queue processor (src/components/Scanner.tsx 275-307)

`processBatch` iterates over the `tasks` array value it captured when the
run started (a snapshot), while each `setTasks(prev => prev.map(...))`
update applies to the current queue, matching entries by id.  The
per-iteration net effect of the ANALYZING transition followed by the
COMPLETED / FAILED transition is collapsed into one update per task. -/

/-- The fields of a `VerificationTask` (types.ts) that `processBatch`
reads or writes.  The file handle, preview URL and metadata are carried
opaquely and omitted. -/
structure VerificationTask where
  id : String
  status : DetectionStatus
  progressMsg : String
  result : Option AnalysisResult
  error : Option String
  deriving DecidableEq, Repr

/-- Outcome of processing one task, as decided by the external collaborators:
artifact extraction failed (the thrown message), the analysis call failed
(the thrown message), or analysis produced a verdict. -/
inductive TaskOutcome where
  | extractFailure (msg : String)
  | analyzeFailure (msg : String)
  | analyzed (res : AnalysisResult)
  deriving DecidableEq, Repr

/-- `task.status === IDLE || task.status === FAILED` — the eligibility test
of Scanner.tsx 279. -/
def eligibleTask (t : VerificationTask) : Bool :=
  decide (t.status = DetectionStatus.IDLE) || decide (t.status = DetectionStatus.FAILED)

/-- Net effect on a queue entry of processing it with outcome `o`: Scanner.tsx
280 first sets ANALYZING and clears the error; on success (299) the entry
becomes COMPLETED with the verdict attached; on failure (302) it becomes
FAILED with the thrown message attached (the prior result is not touched). -/
def applyOutcome (t : VerificationTask) (o : TaskOutcome) : VerificationTask :=
  match o with
  | TaskOutcome.extractFailure msg =>
      { t with status := DetectionStatus.FAILED, error := some msg,
               progressMsg := "Audit Failed" }
  | TaskOutcome.analyzeFailure msg =>
      { t with status := DetectionStatus.FAILED, error := some msg,
               progressMsg := "Audit Failed" }
  | TaskOutcome.analyzed res =>
      { t with status := DetectionStatus.COMPLETED, result := some res, error := none,
               progressMsg := "Audit Complete" }

/-- One iteration of the `for (const task of tasks)` loop body applied to the
current queue: eligibility is read from the snapshot element `task`, and the
update maps over the current queue matching by id. -/
def processBatchStep (oracle : String → TaskOutcome) (queue : List VerificationTask)
    (task : VerificationTask) : List VerificationTask :=
  if eligibleTask task then
    queue.map (fun t => if t.id = task.id then applyOutcome t (oracle task.id) else t)
  else queue

/-- The whole loop of `processBatch`, run over snapshot `snapshot` against the
(shared, possibly since-mutated) queue `queue`. -/
def runBatchOn (oracle : String → TaskOutcome) (snapshot queue : List VerificationTask) :
    List VerificationTask :=
  snapshot.foldl (processBatchStep oracle) queue

/-- `processBatch` as called when the queue has not been mutated since the
run started: the snapshot is the queue itself. -/
def processBatch (oracle : String → TaskOutcome) (tasks : List VerificationTask) :
    List VerificationTask :=
  runBatchOn oracle tasks tasks

/-- The terminal state one eligible task reaches (and the identity on
ineligible tasks). -/
def finalizeTask (oracle : String → TaskOutcome) (t : VerificationTask) :
    VerificationTask :=
  if eligibleTask t then applyOutcome t (oracle t.id) else t

/-! ## Concrete scenarios used by the theorems below -/

/-- A remote-failure behaviour with every malformed outcome replaced by a
plain transient outcome; used to state that the catch block treats the two
identically. -/
def dropMalformed (oracle : Nat → AttemptOutcome) : Nat → AttemptOutcome :=
  fun n =>
    match oracle n with
    | AttemptOutcome.malformed => AttemptOutcome.transient
    | o => o

/-- A sample parsed remote response. -/
def rawSample : RawForensicData :=
  { classification := some Classification.AUTHENTIC, authenticityScore := some 95 }

/-- A remote service that fails transiently on the first two attempts and
then succeeds. -/
def twoTransientThenOk (raw : RawForensicData) : Nat → AttemptOutcome :=
  fun n => if n < 2 then AttemptOutcome.transient else AttemptOutcome.parsed raw

/-- A remote service that fails with a rate-limit (429) error on every
attempt. -/
def quotaAlways : Nat → AttemptOutcome := fun _ => AttemptOutcome.rateLimited

/-- A remote service whose response never parses. -/
def malformedAlways : Nat → AttemptOutcome := fun _ => AttemptOutcome.malformed

/-- A remote service whose response fails to parse on the first attempt and
parses on every later attempt. -/
def malformedThenOk : Nat → AttemptOutcome :=
  fun n => if n = 0 then AttemptOutcome.malformed else AttemptOutcome.parsed rawSample

/-- A remote service that succeeds on every attempt. -/
def parsedAlways : Nat → AttemptOutcome := fun _ => AttemptOutcome.parsed rawSample

/-- An alerting verdict (FAKE at score 10). -/
def hystSample1 : AnalysisResult :=
  { classification := Classification.FAKE, authenticityScore := 10 }

/-- A non-alerting verdict whose score 70 is below the hysteresis
threshold 72. -/
def hystSample2 : AnalysisResult :=
  { classification := Classification.AUTHENTIC, authenticityScore := 70 }

def idT1 : String := "T1"

def idT2 : String := "T2"

def idT3 : String := "T3"

def idT9 : String := "T9"

/-- The message of the extraction failure thrown by the video-frame
extractor. -/
def extractErrMsg : String := "Video decode failed."

def pendingMsg : String := "Pending Audit"

/-- A freshly enqueued task with the given id. -/
def batchTask (i : String) : VerificationTask :=
  { id := i, status := DetectionStatus.IDLE, progressMsg := pendingMsg,
    result := none, error := none }

/-- A sample verdict attached to completed tasks. -/
def vSample : AnalysisResult :=
  { classification := Classification.AUTHENTIC, authenticityScore := 95 }

/-- Collaborator behaviour in which task T2 fails at artifact extraction and
every other task analyzes successfully. -/
def batchOracle : String → TaskOutcome :=
  fun i => if i = idT2 then TaskOutcome.extractFailure extractErrMsg
           else TaskOutcome.analyzed vSample

/-- A queue of three freshly enqueued tasks. -/
def batchQueue3 : List VerificationTask :=
  [batchTask idT1, batchTask idT2, batchTask idT3]

/-! ## Helper lemmas about the invoker loop -/

theorem nextModel_flash : nextModel flashModel = flashModel := by decide

theorem nextModel_pro : nextModel proModel = flashModel := by decide

theorem nextModel_idem (m : String) : nextModel (nextModel m) = nextModel m := by
  by_cases h : stringIncludes m proPat
  · simp [nextModel, h, nextModel_flash]
  · simp [nextModel, h]

theorem range_pow_shift (B a r : Nat) :
    B * 2 ^ a :: (List.range r).map (fun k => B * 2 ^ (a + 1 + k))
      = (List.range (r + 1)).map (fun k => B * 2 ^ (a + k)) := by
  rw [List.range_succ_eq_map, List.map_cons, List.map_map]
  refine congrArg₂ _ (by simp) ?_
  refine List.map_congr_left ?_
  intro k _
  have hk : a + 1 + k = a + Nat.succ k := by omega
  simp [Function.comp, hk]

theorem attemptLoop_retry_step (oracle : Nat → AttemptOutcome) (r a : Nat) (m : String)
    (h : ∀ raw, oracle a ≠ AttemptOutcome.parsed raw) :
    attemptLoop oracle (r + 1) a m
      = { attemptLoop oracle r (a + 1) (nextModel m) with
          delays := INITIAL_BACKOFF * 2 ^ a
            :: (attemptLoop oracle r (a + 1) (nextModel m)).delays
          tiers := m :: (attemptLoop oracle r (a + 1) (nextModel m)).tiers } := by
  cases hx : oracle a with
  | parsed raw => exact absurd hx (h raw)
  | malformed => simp [attemptLoop, hx]
  | rateLimited => simp [attemptLoop, hx]
  | transient => simp [attemptLoop, hx]

theorem attemptLoop_base_fail (oracle : Nat → AttemptOutcome) (a : Nat) (m : String)
    (h : ∀ raw, oracle a ≠ AttemptOutcome.parsed raw) :
    attemptLoop oracle 0 a m
      = { outcome := InvokeOutcome.err
            (if isRateLimitOutcome (oracle a) then InvokeError.quotaExceeded
             else InvokeError.aborted)
          attempts := a + 1
          delays := []
          tiers := [m] } := by
  cases hx : oracle a with
  | parsed raw => exact absurd hx (h raw)
  | malformed => simp [attemptLoop, hx]
  | rateLimited => simp [attemptLoop, hx]
  | transient => simp [attemptLoop, hx]

theorem attemptLoop_const_fail (o : AttemptOutcome)
    (h : ∀ raw, o ≠ AttemptOutcome.parsed raw) :
    ∀ (r a : Nat) (m : String),
      attemptLoop (fun _ => o) r a m =
        { outcome := InvokeOutcome.err
            (if isRateLimitOutcome o then InvokeError.quotaExceeded else InvokeError.aborted)
          attempts := a + r + 1
          delays := (List.range r).map (fun k => INITIAL_BACKOFF * 2 ^ (a + k))
          tiers := m :: List.replicate r (nextModel m) } := by
  intro r
  induction r with
  | zero =>
    intro a m
    exact attemptLoop_base_fail (fun _ => o) a m (fun raw => h raw)
  | succ r ih =>
    intro a m
    rw [attemptLoop_retry_step (fun _ => o) r a m (fun raw => h raw), ih (a + 1) (nextModel m)]
    simp only [InvokeResult.mk.injEq]
    refine ⟨trivial, by omega, range_pow_shift INITIAL_BACKOFF a r, ?_⟩
    rw [nextModel_idem, List.replicate_succ]

theorem attemptLoop_dropMalformed (oracle : Nat → AttemptOutcome) :
    ∀ (r a : Nat) (m : String),
      attemptLoop (dropMalformed oracle) r a m = attemptLoop oracle r a m := by
  intro r
  induction r with
  | zero =>
    intro a m
    cases hx : oracle a with
    | parsed raw => simp [attemptLoop, dropMalformed, hx]
    | malformed => simp [attemptLoop, dropMalformed, hx, isRateLimitOutcome]
    | rateLimited => simp [attemptLoop, dropMalformed, hx]
    | transient => simp [attemptLoop, dropMalformed, hx]
  | succ r ih =>
    intro a m
    cases hx : oracle a with
    | parsed raw => simp [attemptLoop, dropMalformed, hx]
    | malformed => simp [attemptLoop, dropMalformed, hx, ih]
    | rateLimited => simp [attemptLoop, dropMalformed, hx, ih]
    | transient => simp [attemptLoop, dropMalformed, hx, ih]

theorem attemptLoop_tiers_flash (oracle : Nat → AttemptOutcome) :
    ∀ (r a : Nat) (m : String), nextModel m = flashModel →
      ∃ k, (attemptLoop oracle r a m).tiers = m :: List.replicate k flashModel := by
  intro r
  induction r with
  | zero =>
    intro a m _
    refine ⟨0, ?_⟩
    cases hx : oracle a <;> simp [attemptLoop, hx]
  | succ r ih =>
    intro a m hm
    cases hx : oracle a with
    | parsed raw => exact ⟨0, by simp [attemptLoop, hx]⟩
    | malformed =>
      obtain ⟨k, hk⟩ := ih (a + 1) flashModel nextModel_flash
      exact ⟨k + 1, by simp [attemptLoop, hx, hm, hk, List.replicate_succ]⟩
    | rateLimited =>
      obtain ⟨k, hk⟩ := ih (a + 1) flashModel nextModel_flash
      exact ⟨k + 1, by simp [attemptLoop, hx, hm, hk, List.replicate_succ]⟩
    | transient =>
      obtain ⟨k, hk⟩ := ih (a + 1) flashModel nextModel_flash
      exact ⟨k + 1, by simp [attemptLoop, hx, hm, hk, List.replicate_succ]⟩

theorem attemptLoop_ok_normalized (oracle : Nat → AttemptOutcome) :
    ∀ (r a : Nat) (m : String) (v : AnalysisResult),
      (attemptLoop oracle r a m).outcome = InvokeOutcome.ok v →
      ∃ raw, v = normalizeVerdict raw := by
  intro r
  induction r with
  | zero =>
    intro a m v hv
    cases hx : oracle a with
    | parsed raw =>
      refine ⟨raw, ?_⟩
      simp [attemptLoop, hx] at hv
      exact hv.symm
    | malformed => simp [attemptLoop, hx] at hv
    | rateLimited => simp [attemptLoop, hx] at hv
    | transient => simp [attemptLoop, hx] at hv
  | succ r ih =>
    intro a m v hv
    cases hx : oracle a with
    | parsed raw =>
      refine ⟨raw, ?_⟩
      simp [attemptLoop, hx] at hv
      exact hv.symm
    | malformed =>
      simp only [attemptLoop, hx] at hv
      exact ih (a + 1) (nextModel m) v hv
    | rateLimited =>
      simp only [attemptLoop, hx] at hv
      exact ih (a + 1) (nextModel m) v hv
    | transient =>
      simp only [attemptLoop, hx] at hv
      exact ih (a + 1) (nextModel m) v hv

/-! ## Helper lemmas about the batch processor -/

theorem finalizeTask_id (oracle : String → TaskOutcome) (t : VerificationTask) :
    (finalizeTask oracle t).id = t.id := by
  unfold finalizeTask
  split
  · cases oracle t.id <;> rfl
  · rfl

theorem processBatchStep_append (oracle : String → TaskOutcome)
    (q1 q2 : List VerificationTask) (u : VerificationTask) :
    processBatchStep oracle (q1 ++ q2) u
      = processBatchStep oracle q1 u ++ processBatchStep oracle q2 u := by
  unfold processBatchStep
  split
  · exact List.map_append _ q1 q2
  · rfl

theorem runBatchOn_append (oracle : String → TaskOutcome) :
    ∀ (snapshot q1 q2 : List VerificationTask),
      runBatchOn oracle snapshot (q1 ++ q2)
        = runBatchOn oracle snapshot q1 ++ runBatchOn oracle snapshot q2 := by
  intro snapshot
  induction snapshot with
  | nil => intro q1 q2; rfl
  | cons u rest ih =>
    intro q1 q2
    show runBatchOn oracle rest (processBatchStep oracle (q1 ++ q2) u) = _
    rw [processBatchStep_append]
    exact ih _ _

theorem runBatchOn_fresh_single (oracle : String → TaskOutcome) :
    ∀ (snapshot : List VerificationTask) (e : VerificationTask),
      (∀ u ∈ snapshot, u.id ≠ e.id) →
      runBatchOn oracle snapshot [e] = [e] := by
  intro snapshot
  induction snapshot with
  | nil => intro e _; rfl
  | cons u rest ih =>
    intro e h
    have hu : u.id ≠ e.id := h u (List.mem_cons_self u rest)
    have hstep : processBatchStep oracle [e] u = [e] := by
      unfold processBatchStep
      split
      · show [if e.id = u.id then applyOutcome e (oracle u.id) else e] = [e]
        rw [if_neg (fun hh : e.id = u.id => hu hh.symm)]
      · rfl
    show runBatchOn oracle rest (processBatchStep oracle [e] u) = [e]
    rw [hstep]
    exact ih e (fun u2 hu2 => h u2 (List.mem_cons_of_mem u hu2))

theorem runBatchOn_nil (oracle : String → TaskOutcome) :
    ∀ snapshot : List VerificationTask, runBatchOn oracle snapshot [] = [] := by
  intro snapshot
  induction snapshot with
  | nil => rfl
  | cons u rest ih =>
    have hstep : processBatchStep oracle [] u = [] := by
      unfold processBatchStep
      split <;> rfl
    show runBatchOn oracle rest (processBatchStep oracle [] u) = []
    rw [hstep]
    exact ih

theorem runBatchOn_fresh (oracle : String → TaskOutcome)
    (snapshot : List VerificationTask) :
    ∀ q : List VerificationTask,
      (∀ u ∈ snapshot, ∀ e ∈ q, u.id ≠ e.id) →
      runBatchOn oracle snapshot q = q := by
  intro q
  induction q with
  | nil => intro _; exact runBatchOn_nil oracle snapshot
  | cons e q ih =>
    intro h
    have he : runBatchOn oracle snapshot [e] = [e] :=
      runBatchOn_fresh_single oracle snapshot e
        (fun u hu => h u hu e (List.mem_cons_self e q))
    have hq : runBatchOn oracle snapshot q = q :=
      ih (fun u hu e2 he2 => h u hu e2 (List.mem_cons_of_mem e he2))
    calc runBatchOn oracle snapshot (e :: q)
        = runBatchOn oracle snapshot ([e] ++ q) := rfl
      _ = runBatchOn oracle snapshot [e] ++ runBatchOn oracle snapshot q :=
          runBatchOn_append oracle snapshot [e] q
      _ = e :: q := by rw [he, hq]; rfl

theorem processBatch_eq_map (oracle : String → TaskOutcome) :
    ∀ tasks : List VerificationTask,
      tasks.Pairwise (fun a b => a.id ≠ b.id) →
      processBatch oracle tasks = tasks.map (finalizeTask oracle) := by
  intro tasks
  induction tasks with
  | nil => intro _; rfl
  | cons t rest ih =>
    intro hp
    rw [List.pairwise_cons] at hp
    obtain ⟨h1, h2⟩ := hp
    have hstep : processBatchStep oracle (t :: rest) t = finalizeTask oracle t :: rest := by
      unfold processBatchStep finalizeTask
      split
      · rw [List.map_cons, if_pos rfl]
        refine congrArg _ ?_
        refine (List.map_congr_left ?_).trans (List.map_id rest)
        intro u hu
        exact if_neg (fun hh : u.id = t.id => h1 u hu hh.symm)
      · rfl
    show runBatchOn oracle rest (processBatchStep oracle (t :: rest) t)
        = finalizeTask oracle t :: rest.map (finalizeTask oracle)
    rw [hstep]
    calc runBatchOn oracle rest (finalizeTask oracle t :: rest)
        = runBatchOn oracle rest ([finalizeTask oracle t] ++ rest) := rfl
      _ = runBatchOn oracle rest [finalizeTask oracle t] ++ runBatchOn oracle rest rest :=
          runBatchOn_append oracle rest [finalizeTask oracle t] rest
      _ = finalizeTask oracle t :: rest.map (finalizeTask oracle) := by
          rw [runBatchOn_fresh_single oracle rest (finalizeTask oracle t)
              (fun u hu => by rw [finalizeTask_id]; exact fun hh => h1 u hu hh.symm)]
          rw [show runBatchOn oracle rest rest = processBatch oracle rest from rfl, ih h2]
          rfl

/-! ## Claim theorems -/

/-- C1: for every analysis verdict fed to the live-path classification
policy, the alert decision is true if and only if the classification is FAKE,
or the classification is SUSPICIOUS and the authenticity score is strictly
below 60; no other combination raises an alert. -/
theorem alert_rule_iff :
    ∀ res : AnalysisResult,
      alertDecision res = true
        ↔ (res.classification = Classification.FAKE
           ∨ (res.classification = Classification.SUSPICIOUS
              ∧ res.authenticityScore < 60)) := by
  intro res
  simp [alertDecision]

/-- C2: the source retry budget is 2; against a remote service that fails
twice with a transient error and then succeeds, invoking with the default
budget returns the success verdict after exactly 3 attempts with backoffs
2000 ms and 4000 ms; against a service that fails with a rate-limit error on
every attempt, invoking with any budget fails with QuotaExceeded after
exactly 1 + budget attempts, the delay before each retry doubling from the
base backoff. -/
theorem invoker_retry_counts :
    MAX_RETRIES = 2
    ∧ (∀ raw : RawForensicData,
        analyzeContent (twoTransientThenOk raw) MAX_RETRIES false
          = { outcome := InvokeOutcome.ok (normalizeVerdict raw)
              attempts := 3
              delays := [INITIAL_BACKOFF, 2 * INITIAL_BACKOFF]
              tiers := [proModel, flashModel, flashModel] })
    ∧ (∀ retryBudget : Nat,
        (analyzeContent quotaAlways retryBudget false).outcome
            = InvokeOutcome.err InvokeError.quotaExceeded
        ∧ (analyzeContent quotaAlways retryBudget false).attempts = 1 + retryBudget
        ∧ (analyzeContent quotaAlways retryBudget false).delays
            = (List.range retryBudget).map (fun k => INITIAL_BACKOFF * 2 ^ k)) := by
  refine ⟨rfl, fun raw => rfl, fun retryBudget => ?_⟩
  have h := attemptLoop_const_fail AttemptOutcome.rateLimited (fun raw hc => by cases hc)
    retryBudget 0 proModel
  have e : analyzeContent quotaAlways retryBudget false
      = attemptLoop (fun _ => AttemptOutcome.rateLimited) retryBudget 0 proModel := rfl
  rw [e, h]
  dsimp only
  refine ⟨rfl, by omega, ?_⟩
  simp

/-- C3 counterexample: a remote response that fails to parse on the first
attempt is not surfaced to the caller: with the default budget the invocation
consumes a retry (one backoff sleep) and then returns the success verdict of
the second attempt, making 2 attempts rather than failing after 1. -/
theorem malformed_retry_counterexample :
    (analyzeContent malformedThenOk MAX_RETRIES false).outcome
        = InvokeOutcome.ok (normalizeVerdict rawSample)
    ∧ (analyzeContent malformedThenOk MAX_RETRIES false).attempts = 2
    ∧ (analyzeContent malformedThenOk MAX_RETRIES false).delays = [INITIAL_BACKOFF]
    ∧ ¬ (analyzeContent malformedThenOk MAX_RETRIES false).attempts = 1 := by
  refine ⟨rfl, rfl, rfl, by decide⟩

/-- C3 amended: a malformed (unparseable) remote response is treated exactly
like a transient failure: replacing malformed outcomes by transient ones
leaves the invocation unchanged, and a service whose responses never parse
makes the invocation fail with the generic aborted error only after the full
1 + budget attempts. -/
theorem malformed_treated_as_transient :
    (∀ (oracle : Nat → AttemptOutcome) (retryBudget : Nat) (isLive : Bool),
        analyzeContent (dropMalformed oracle) retryBudget isLive
          = analyzeContent oracle retryBudget isLive)
    ∧ (∀ (retryBudget : Nat) (isLive : Bool),
        (analyzeContent malformedAlways retryBudget isLive).outcome
            = InvokeOutcome.err InvokeError.aborted
        ∧ (analyzeContent malformedAlways retryBudget isLive).attempts
            = 1 + retryBudget) := by
  constructor
  · intro oracle retryBudget isLive
    unfold analyzeContent
    exact attemptLoop_dropMalformed oracle retryBudget 0 _
  · intro retryBudget isLive
    have h := attemptLoop_const_fail AttemptOutcome.malformed (fun raw hc => by cases hc)
      retryBudget 0 (if isLive then flashModel else proModel)
    have e : analyzeContent malformedAlways retryBudget isLive
        = attemptLoop (fun _ => AttemptOutcome.malformed) retryBudget 0
            (if isLive then flashModel else proModel) := rfl
    rw [e, h]
    dsimp only
    exact ⟨rfl, by omega⟩

/-- C4: within one invocation, the first attempt uses the flash tier when
isLive and the pro tier otherwise, and every later attempt within the same
call uses the flash tier — the tier never reverts to pro. -/
theorem model_tier_degradation :
    ∀ (oracle : Nat → AttemptOutcome) (retryBudget : Nat) (isLive : Bool),
      ∃ k, (analyzeContent oracle retryBudget isLive).tiers
        = (if isLive then flashModel else proModel) :: List.replicate k flashModel := by
  intro oracle retryBudget isLive
  unfold analyzeContent
  refine attemptLoop_tiers_flash oracle retryBudget 0 _ ?_
  cases isLive
  · simpa using nextModel_pro
  · simpa using nextModel_flash

/-- C5: once the live session has alerted (safe = false), the safe flag stays
false across any run of verdicts whose scores are all at most 72, and a
single verdict flips it back to true exactly when that verdict is
non-alerting and its score exceeds 72. -/
theorem live_hysteresis :
    (∀ vs : List AnalysisResult,
        (∀ v ∈ vs, v.authenticityScore ≤ 72) →
        vs.foldl liveSafeStep false = false)
    ∧ (∀ v : AnalysisResult,
        liveSafeStep false v = true
          ↔ (alertDecision v = false ∧ 72 < v.authenticityScore)) := by
  constructor
  · intro vs
    induction vs with
    | nil => intro _; rfl
    | cons v rest ih =>
      intro h
      have hv : v.authenticityScore ≤ 72 := h v (List.mem_cons_self v rest)
      have hstep : liveSafeStep false v = false := by
        unfold liveSafeStep
        split
        · rfl
        · split
          · omega
          · rfl
      rw [List.foldl_cons, hstep]
      exact ih (fun u hu => h u (List.mem_cons_of_mem v hu))
  · intro v
    unfold liveSafeStep
    cases h : alertDecision v with
    | true => simp [h]
    | false =>
      simp only [h, Bool.false_eq_true, if_false]
      split <;> simp_all

/-- C5 witness: after an alerting verdict and a non-alerting verdict at
score 70 (at most 72), the session is still not safe. -/
theorem live_hysteresis_witness :
    List.foldl liveSafeStep false [hystSample1, hystSample2] = false :=
  live_hysteresis.1 [hystSample1, hystSample2] (by decide)

/-- C6: the authenticity score exposed by the Invoker is clamped to [0, 100]:
every normalized verdict has a score in [0, 100]; raw scores of -10 and 140
are normalized to 0 and 100; and every verdict an invocation returns
successfully satisfies the bounds. -/
theorem score_clamped :
    (∀ raw : RawForensicData,
        0 ≤ (normalizeVerdict raw).authenticityScore
        ∧ (normalizeVerdict raw).authenticityScore ≤ 100)
    ∧ (∀ c : Option Classification,
        (normalizeVerdict
            { classification := c, authenticityScore := some (-10) }).authenticityScore = 0
        ∧ (normalizeVerdict
            { classification := c, authenticityScore := some 140 }).authenticityScore = 100)
    ∧ (∀ (oracle : Nat → AttemptOutcome) (retryBudget : Nat) (isLive : Bool)
          (v : AnalysisResult),
        (analyzeContent oracle retryBudget isLive).outcome = InvokeOutcome.ok v →
        0 ≤ v.authenticityScore ∧ v.authenticityScore ≤ 100) := by
  have bounds : ∀ raw : RawForensicData,
      0 ≤ (normalizeVerdict raw).authenticityScore
      ∧ (normalizeVerdict raw).authenticityScore ≤ 100 := by
    intro raw
    unfold normalizeVerdict
    dsimp only
    constructor
    · exact le_min (by norm_num) (le_max_left 0 _)
    · exact min_le_left _ _
  refine ⟨bounds, fun c => ⟨rfl, rfl⟩, ?_⟩
  intro oracle retryBudget isLive v hv
  obtain ⟨raw, hraw⟩ := attemptLoop_ok_normalized oracle retryBudget 0 _ v hv
  rw [hraw]
  exact bounds raw

/-- C6 witness: the verdict returned by an invocation against an
always-succeeding service has its score within [0, 100]. -/
theorem score_clamped_witness :
    0 ≤ (normalizeVerdict rawSample).authenticityScore
    ∧ (normalizeVerdict rawSample).authenticityScore ≤ 100 :=
  score_clamped.2.2 parsedAlways 2 false (normalizeVerdict rawSample) rfl

/-- C7: after stop, a late-arriving analysis result is discarded — it changes
no session state and schedules no further sample cycle; stop cancels the
pending sampling timer; and stop is idempotent. -/
theorem stop_discards_inflight :
    ∀ (s : LiveSession) (res : AnalysisResult),
      applyLiveResult (stopMonitoring s) res = stopMonitoring s
      ∧ (stopMonitoring s).samplingScheduled = false
      ∧ stopMonitoring (stopMonitoring s) = stopMonitoring s := by
  intro s res
  exact ⟨rfl, rfl, rfl⟩

/-- C8: in the alternate Scanner variant, a quota failure in a running
session starts the cooldown, its 30-second expiry timer, and an 8-second
retry; the retry fires during the cooldown and is dropped by the entry guard
without rescheduling; when the cooldown expires the session is still
streaming but has no sample scheduled, and from that state neither a sample
event nor a cooldown event changes anything — sampling never resumes, contra
the claimed automatic resumption. -/
theorem quota_cooldown_stall :
    ∀ o o2 : SampleOutcome,
      (captureAndAnalyze runningState SampleOutcome.quotaFailure).isCoolingDown = true
      ∧ (captureAndAnalyze runningState SampleOutcome.quotaFailure).sampleScheduled = true
      ∧ (captureAndAnalyze runningState
            SampleOutcome.quotaFailure).cooldownTimerScheduled = true
      ∧ captureAndAnalyze (captureAndAnalyze runningState SampleOutcome.quotaFailure) o
          = { captureAndAnalyze runningState SampleOutcome.quotaFailure with
              sampleScheduled := false }
      ∧ (cooldownExpire (captureAndAnalyze
            (captureAndAnalyze runningState SampleOutcome.quotaFailure) o)).isStreaming = true
      ∧ (cooldownExpire (captureAndAnalyze
            (captureAndAnalyze runningState SampleOutcome.quotaFailure) o)).isCoolingDown = false
      ∧ (cooldownExpire (captureAndAnalyze
            (captureAndAnalyze runningState SampleOutcome.quotaFailure) o)).sampleScheduled
          = false
      ∧ captureAndAnalyze (cooldownExpire (captureAndAnalyze
            (captureAndAnalyze runningState SampleOutcome.quotaFailure) o)) o2
          = cooldownExpire (captureAndAnalyze
              (captureAndAnalyze runningState SampleOutcome.quotaFailure) o)
      ∧ cooldownExpire (cooldownExpire (captureAndAnalyze
            (captureAndAnalyze runningState SampleOutcome.quotaFailure) o))
          = cooldownExpire (captureAndAnalyze
              (captureAndAnalyze runningState SampleOutcome.quotaFailure) o) := by
  intro o o2
  exact ⟨rfl, rfl, rfl, rfl, rfl, rfl, rfl, rfl, rfl⟩

/-- C9: a single failing task does not abort the batch: with distinct ids the
batch run finalizes every task independently; each eligible task ends
COMPLETED or FAILED; a task whose extraction or analysis throws ends FAILED
with the thrown message attached, while a task whose analysis succeeds ends
COMPLETED with its verdict; and in the concrete 3-task queue where task T2
fails extraction, tasks T1 and T3 end COMPLETED while T2 ends FAILED with a
non-empty error. -/
theorem batch_failure_isolation :
    (∀ (oracle : String → TaskOutcome) (tasks : List VerificationTask),
        tasks.Pairwise (fun a b => a.id ≠ b.id) →
        processBatch oracle tasks = tasks.map (finalizeTask oracle))
    ∧ (∀ (oracle : String → TaskOutcome) (t : VerificationTask),
        eligibleTask t = true →
        (finalizeTask oracle t).status = DetectionStatus.COMPLETED
        ∨ (finalizeTask oracle t).status = DetectionStatus.FAILED)
    ∧ (∀ (oracle : String → TaskOutcome) (t : VerificationTask) (msg : String),
        eligibleTask t = true →
        (oracle t.id = TaskOutcome.extractFailure msg
         ∨ oracle t.id = TaskOutcome.analyzeFailure msg) →
        (finalizeTask oracle t).status = DetectionStatus.FAILED
        ∧ (finalizeTask oracle t).error = some msg)
    ∧ (∀ (oracle : String → TaskOutcome) (t : VerificationTask) (res : AnalysisResult),
        eligibleTask t = true →
        oracle t.id = TaskOutcome.analyzed res →
        (finalizeTask oracle t).status = DetectionStatus.COMPLETED
        ∧ (finalizeTask oracle t).result = some res)
    ∧ ((processBatch batchOracle batchQueue3).map VerificationTask.status
          = [DetectionStatus.COMPLETED, DetectionStatus.FAILED, DetectionStatus.COMPLETED]
        ∧ (processBatch batchOracle batchQueue3).map VerificationTask.error
          = [none, some extractErrMsg, none]
        ∧ extractErrMsg ≠ "") := by
  refine ⟨fun oracle tasks hp => processBatch_eq_map oracle tasks hp, ?_, ?_, ?_, by decide⟩
  · intro oracle t ht
    unfold finalizeTask
    rw [if_pos ht]
    cases oracle t.id with
    | extractFailure msg => exact Or.inr rfl
    | analyzeFailure msg => exact Or.inr rfl
    | analyzed res => exact Or.inl rfl
  · intro oracle t msg ht ho
    unfold finalizeTask
    rw [if_pos ht]
    rcases ho with ho | ho <;> rw [ho] <;> exact ⟨rfl, rfl⟩
  · intro oracle t res ht ho
    unfold finalizeTask
    rw [if_pos ht, ho]
    exact ⟨rfl, rfl⟩

/-- C9 witness: the 3-task batch run equals the per-task finalization map. -/
theorem batch_failure_isolation_witness :
    processBatch batchOracle batchQueue3 = batchQueue3.map (finalizeTask batchOracle) :=
  batch_failure_isolation.1 batchOracle batchQueue3 (by decide)

/-- C10: a batch run operates on the snapshot taken when it started: tasks
appended to the shared queue whose ids are not in the snapshot come out of
the run verbatim (so a task enqueued mid-run stays IDLE and is neither
visited nor analyzed by the in-progress run). -/
theorem batch_snapshot_semantics :
    ∀ (oracle : String → TaskOutcome) (snapshot queue added : List VerificationTask),
      (∀ u ∈ snapshot, ∀ e ∈ added, u.id ≠ e.id) →
      runBatchOn oracle snapshot (queue ++ added)
          = runBatchOn oracle snapshot queue ++ added
      ∧ runBatchOn oracle snapshot added = added := by
  intro oracle snapshot queue added h
  have hf : runBatchOn oracle snapshot added = added :=
    runBatchOn_fresh oracle snapshot added h
  exact ⟨by rw [runBatchOn_append, hf], hf⟩

/-- C10 witness: a task T9 appended after the run started is returned
verbatim by a run whose snapshot contains only T1. -/
theorem batch_snapshot_semantics_witness :
    runBatchOn batchOracle [batchTask idT1] ([batchTask idT1] ++ [batchTask idT9])
        = runBatchOn batchOracle [batchTask idT1] [batchTask idT1] ++ [batchTask idT9] :=
  (batch_snapshot_semantics batchOracle [batchTask idT1] [batchTask idT1] [batchTask idT9]
    (by decide)).1
